import Mathlib

/-!
Shallow embedding of `app/src/black_frame_detector.c` (and its header
`black_frame_detector.h`): a streaming black-frame detector consisting of a
per-frame luminance classifier `is_black_frame` and an episodic state machine
`sc_black_frame_detector_sink_push` acting on the counters of
`struct sc_black_frame_detector`.

Modelling notes:
- C `int` / `long long` counters are modelled as `Nat`; all counters in the C
  code are non-negative and, apart from `total_frames_processed`, bounded far
  below any overflow, so mathematical naturals are faithful.
- The C classifier compares `(double)sum / total < 30`.  `sum` and `total` are
  integers with `sum ≤ 255 * total` and `total < 2^31`, so the conversion to
  `double` and the division are exact enough that the comparison agrees with
  the exact rational comparison `sum < 30 * total` (the quotient is a rational
  with denominator `total < 2^31`, whose distance to `30` is at least
  `1/total > 2^-31`, far above the half-ulp of a `double` near `30`).  When
  `total = 0` the C code computes `0.0/0 = NaN` and `NaN < 30` is `false`,
  matching `sum < 30 * 0 = false`.
- `SDL_PushEvent(SC_EVENT_RESET_VIDEO)` is modelled as the `emitted` flag of
  `PushResult`; each `return true` site of the C function becomes `accepted := true`.
- Logging (`LOGD`/`LOGI`) has no observable effect and is dropped.
- The `offsetof` container-of recovery of the detector from the sink handle is
  modelled by passing the detector state directly.
-/

/-- The pixel-format tag of a decoded frame.  The C switch distinguishes
`AV_PIX_FMT_YUV420P`, `AV_PIX_FMT_NV12`, `AV_PIX_FMT_NV21`,
`AV_PIX_FMT_RGB24`, `AV_PIX_FMT_BGR24`; every other value of the FFmpeg
enumeration is represented by `other` with its numeric code. -/
inductive AVPixelFormat where
  | YUV420P : AVPixelFormat
  | NV12 : AVPixelFormat
  | NV21 : AVPixelFormat
  | RGB24 : AVPixelFormat
  | BGR24 : AVPixelFormat
  | other : Nat → AVPixelFormat
deriving DecidableEq

/-- The part of the FFmpeg `AVFrame` read by the detector: dimensions, the
format tag, and plane 0 (`data[0]` with row stride `linesize[0]`), modelled as
a byte map indexed by offset from the start of the plane. -/
structure AVFrame where
  format : AVPixelFormat
  width : Nat
  height : Nat
  linesize0 : Nat
  data0 : Nat → Nat

/-- The brightness cutoff used by both branches of `is_black_frame`
(the literal `30` in `avg_luma < 30` and `avg_brightness < 30`). -/
def BRIGHTNESS_THRESHOLD : Nat := 30

/-- Number of bytes of each row that `is_black_frame` samples: `width` bytes
of the luma plane for the supported YUV-family formats, `width * 3` bytes for
the packed RGB-family formats (and `width` as a default elsewhere, where it is
never used since unsupported formats are not sampled at all). -/
def sampleRowWidth (f : AVFrame) : Nat :=
  match f.format with
  | .RGB24 => f.width * 3
  | .BGR24 => f.width * 3
  | _ => f.width

/-- `luma_sum` of the YUV branch: sum of `data[0][i * linesize[0] + j]` for
`0 ≤ i < height`, `0 ≤ j < width`. -/
def lumaSum (f : AVFrame) : Nat :=
  ∑ i in Finset.range f.height, ∑ j in Finset.range f.width,
    f.data0 (i * f.linesize0 + j)

/-- `total_sum` of the RGB branch: sum of `data[0][i * linesize[0] + j]` for
`0 ≤ i < height`, `0 ≤ j < width * 3`. -/
def packedSum (f : AVFrame) : Nat :=
  ∑ i in Finset.range f.height, ∑ j in Finset.range (f.width * 3),
    f.data0 (i * f.linesize0 + j)

/-- Whether the format is one of the five the classifier samples. -/
def is_supported_format : AVPixelFormat → Bool
  | .YUV420P => true
  | .NV12 => true
  | .NV21 => true
  | .RGB24 => true
  | .BGR24 => true
  | .other _ => false

/-- `is_black_frame` from `black_frame_detector.c`: average-sample comparison
against the fixed threshold 30 on the luma plane (YUV420P/NV12/NV21) or on all
packed bytes (RGB24/BGR24); any other format returns `false`. -/
def is_black_frame (f : AVFrame) : Bool :=
  match f.format with
  | .YUV420P => decide (lumaSum f < BRIGHTNESS_THRESHOLD * (f.width * f.height))
  | .NV12 => decide (lumaSum f < BRIGHTNESS_THRESHOLD * (f.width * f.height))
  | .NV21 => decide (lumaSum f < BRIGHTNESS_THRESHOLD * (f.width * f.height))
  | .RGB24 => decide (packedSum f < BRIGHTNESS_THRESHOLD * (f.width * f.height * 3))
  | .BGR24 => decide (packedSum f < BRIGHTNESS_THRESHOLD * (f.width * f.height * 3))
  | .other _ => false

/-- The sample region of the classified plane holds the uniform value `v`. -/
def uniformSamples (f : AVFrame) (v : Nat) : Prop :=
  ∀ i < f.height, ∀ j < sampleRowWidth f, f.data0 (i * f.linesize0 + j) = v

/-- The mutable counters of `struct sc_black_frame_detector`
(the embedded `frame_sink` handle carries no state of its own). -/
structure BfdState where
  black_frame_count : Nat
  total_frames_processed : Nat
  recent_black_episodes : Nat
  frames_since_last_black_episode : Nat
deriving DecidableEq

/-- Result of one `sc_black_frame_detector_sink_push` call: the detector state
after the call, whether `SDL_PushEvent(SC_EVENT_RESET_VIDEO)` was invoked
during the call, and the boolean the function returned. -/
structure PushResult where
  st : BfdState
  emitted : Bool
  accepted : Bool
deriving DecidableEq

/-- The trailing idle-window check of `sc_black_frame_detector_sink_push`:
`if (frames_since_last_black_episode > 300) { recent_black_episodes = 0;
frames_since_last_black_episode = 0; }`. -/
def idle_check (s : BfdState) : BfdState :=
  if s.frames_since_last_black_episode > 300 then
    { s with recent_black_episodes := 0, frames_since_last_black_episode := 0 }
  else s

/-- `sc_black_frame_detector_sink_push`, with the frame already classified
(`isBlack = is_black_frame frame`).  Mirrors the C control flow: increment the
two telemetry counters; on a black frame increment the run counter and, past
10, reset run and episode counters and return early (skipping the idle-window
check); on a non-black frame ending a run of length 2..5 increment the episode
counter, reset `frames_since_last_black_episode`, and at 3 episodes emit the
reset event and zero the episode counter; then zero the run counter; finally
run the idle-window check.  Every path returns `accepted = true`. -/
def sc_black_frame_detector_sink_push (s : BfdState) (isBlack : Bool) : PushResult :=
  let s1 : BfdState :=
    { s with
      total_frames_processed := s.total_frames_processed + 1,
      frames_since_last_black_episode := s.frames_since_last_black_episode + 1 }
  if isBlack then
    let s2 : BfdState := { s1 with black_frame_count := s1.black_frame_count + 1 }
    if s2.black_frame_count > 10 then
      ⟨{ s2 with black_frame_count := 0, recent_black_episodes := 0 }, false, true⟩
    else
      ⟨idle_check s2, false, true⟩
  else
    if s1.black_frame_count > 0 then
      if 2 ≤ s1.black_frame_count ∧ s1.black_frame_count ≤ 5 then
        let s2 : BfdState :=
          { s1 with
            recent_black_episodes := s1.recent_black_episodes + 1,
            frames_since_last_black_episode := 0 }
        if s2.recent_black_episodes ≥ 3 then
          ⟨idle_check { s2 with recent_black_episodes := 0, black_frame_count := 0 },
           true, true⟩
        else
          ⟨idle_check { s2 with black_frame_count := 0 }, false, true⟩
      else
        ⟨idle_check { s1 with black_frame_count := 0 }, false, true⟩
    else
      ⟨idle_check s1, false, true⟩

/-- `sc_black_frame_detector_sink_open`: ignores the sink and the stream
parameters (of arbitrary type, since the C function never reads them) and
returns `true`. -/
def sc_black_frame_detector_sink_open {α : Type} (_params : α) : Bool :=
  true

/-- `sc_black_frame_detector_init`: all four counters start at zero. -/
def sc_black_frame_detector_init : BfdState :=
  ⟨0, 0, 0, 0⟩

/-- One push of an actual frame: classify, then run the state machine. -/
def push_frame (s : BfdState) (f : AVFrame) : PushResult :=
  sc_black_frame_detector_sink_push s (is_black_frame f)

/-- Push a sequence of classified frames; returns the final state and the
number of reset events emitted along the way. -/
def pushSeq (s : BfdState) : List Bool → BfdState × Nat
  | [] => (s, 0)
  | b :: rest =>
    let r := sc_black_frame_detector_sink_push s b
    let p := pushSeq r.st rest
    (p.1, (if r.emitted then 1 else 0) + p.2)

/-- A "qualifying blink run" stimulus: `g` non-black frames, then 3 black
frames, then the non-black frame that completes the run. -/
def blinkRun (g : Nat) : List Bool :=
  List.replicate g false ++ List.replicate 3 true ++ [false]
lemma push_black_run (b t r f : Nat) (hb : b + 1 ≤ 10) (hf : f + 1 ≤ 300) :
    sc_black_frame_detector_sink_push ⟨b, t, r, f⟩ true =
      ⟨⟨b + 1, t + 1, r, f + 1⟩, false, true⟩ := by
  simp [sc_black_frame_detector_sink_push, idle_check]
  try split_ifs
  all_goals first | rfl | omega | simp_all

lemma push_black_screenoff (b t r f : Nat) (hb : b + 1 > 10) :
    sc_black_frame_detector_sink_push ⟨b, t, r, f⟩ true =
      ⟨⟨0, t + 1, 0, f + 1⟩, false, true⟩ := by
  simp [sc_black_frame_detector_sink_push, idle_check]
  try split_ifs
  all_goals first | rfl | omega | simp_all

lemma push_black_aging (b t r f : Nat) (hb : b + 1 ≤ 10) (hf : f + 1 > 300) :
    sc_black_frame_detector_sink_push ⟨b, t, r, f⟩ true =
      ⟨⟨b + 1, t + 1, 0, 0⟩, false, true⟩ := by
  simp [sc_black_frame_detector_sink_push, idle_check]
  try split_ifs
  all_goals first | rfl | omega | simp_all

lemma push_false_idle (t r f : Nat) (hf : f + 1 ≤ 300) :
    sc_black_frame_detector_sink_push ⟨0, t, r, f⟩ false =
      ⟨⟨0, t + 1, r, f + 1⟩, false, true⟩ := by
  simp [sc_black_frame_detector_sink_push, idle_check]
  try split_ifs
  all_goals first | rfl | omega | simp_all

lemma push_false_idle_aging (t r f : Nat) (hf : f + 1 > 300) :
    sc_black_frame_detector_sink_push ⟨0, t, r, f⟩ false =
      ⟨⟨0, t + 1, 0, 0⟩, false, true⟩ := by
  simp [sc_black_frame_detector_sink_push, idle_check]
  try split_ifs
  all_goals first | rfl | omega | simp_all

lemma push_complete_band (b t r f : Nat) (h2 : 2 ≤ b) (h5 : b ≤ 5) :
    sc_black_frame_detector_sink_push ⟨b, t, r, f⟩ false =
      if r + 1 ≥ 3 then ⟨⟨0, t + 1, 0, 0⟩, true, true⟩
      else ⟨⟨0, t + 1, r + 1, 0⟩, false, true⟩ := by
  simp [sc_black_frame_detector_sink_push, idle_check]
  try split_ifs
  all_goals first | rfl | omega | simp_all

lemma push_complete_offband (b t r f : Nat) (hb : 0 < b) (hband : ¬(2 ≤ b ∧ b ≤ 5))
    (hf : f + 1 ≤ 300) :
    sc_black_frame_detector_sink_push ⟨b, t, r, f⟩ false =
      ⟨⟨0, t + 1, r, f + 1⟩, false, true⟩ := by
  simp [sc_black_frame_detector_sink_push, idle_check]
  try split_ifs
  all_goals first | rfl | omega | simp_all

lemma push_complete_offband_aging (b t r f : Nat) (hb : 0 < b) (hband : ¬(2 ≤ b ∧ b ≤ 5))
    (hf : f + 1 > 300) :
    sc_black_frame_detector_sink_push ⟨b, t, r, f⟩ false =
      ⟨⟨0, t + 1, 0, 0⟩, false, true⟩ := by
  simp [sc_black_frame_detector_sink_push, idle_check]
  try split_ifs
  all_goals first | rfl | omega | simp_all

lemma pushSeq_append (l1 l2 : List Bool) (s : BfdState) :
    pushSeq s (l1 ++ l2) =
      ((pushSeq (pushSeq s l1).1 l2).1,
       (pushSeq s l1).2 + (pushSeq (pushSeq s l1).1 l2).2) := by
  induction l1 generalizing s with
  | nil => simp [pushSeq]
  | cons b rest ih =>
    simp [pushSeq, ih, Nat.add_assoc]

lemma pushSeq_gap (g : Nat) : ∀ t r f : Nat, f + g ≤ 300 →
    pushSeq ⟨0, t, r, f⟩ (List.replicate g false) =
      (⟨0, t + g, r, f + g⟩, 0) := by
  induction g with
  | zero => intro t r f _; simp [pushSeq]
  | succ n ih =>
    intro t r f hf
    rw [List.replicate_succ]
    simp only [pushSeq]
    rw [push_false_idle t r f (by omega)]
    simp only
    rw [ih (t + 1) r (f + 1) (by omega)]
    simp
    all_goals omega

lemma pushSeq_blacks (k : Nat) : ∀ b t r f : Nat, b + k ≤ 10 → f + k ≤ 300 →
    pushSeq ⟨b, t, r, f⟩ (List.replicate k true) =
      (⟨b + k, t + k, r, f + k⟩, 0) := by
  induction k with
  | zero => intro b t r f _ _; simp [pushSeq]
  | succ n ih =>
    intro b t r f hb hf
    rw [List.replicate_succ]
    simp only [pushSeq]
    rw [push_black_run b t r f (by omega) (by omega)]
    simp only
    rw [ih (b + 1) (t + 1) r (f + 1) (by omega) (by omega)]
    simp
    all_goals omega

lemma pushSeq_gap_re0 (g : Nat) : ∀ t f : Nat, f ≤ 300 →
    ∃ x ≤ 300, pushSeq ⟨0, t, 0, f⟩ (List.replicate g false) =
      (⟨0, t + g, 0, x⟩, 0) := by
  induction g with
  | zero => intro t f hf; exact ⟨f, hf, by simp [pushSeq]⟩
  | succ n ih =>
    intro t f hf
    rw [List.replicate_succ]
    simp only [pushSeq]
    by_cases hc : f + 1 ≤ 300
    · rw [push_false_idle t 0 f hc]
      simp only
      obtain ⟨x, hx, hrec⟩ := ih (t + 1) (f + 1) hc
      refine ⟨x, hx, ?_⟩
      rw [hrec]
      simp
      all_goals omega
    · rw [push_false_idle_aging t 0 f (by omega)]
      simp only
      obtain ⟨x, hx, hrec⟩ := ih (t + 1) 0 (by omega)
      refine ⟨x, hx, ?_⟩
      rw [hrec]
      simp
      all_goals omega

lemma pushSeq_blacks_re0 (k : Nat) : ∀ b t f : Nat, b + k ≤ 10 → f ≤ 300 →
    ∃ x ≤ 300, pushSeq ⟨b, t, 0, f⟩ (List.replicate k true) =
      (⟨b + k, t + k, 0, x⟩, 0) := by
  induction k with
  | zero => intro b t f _ hf; exact ⟨f, hf, by simp [pushSeq]⟩
  | succ n ih =>
    intro b t f hb hf
    rw [List.replicate_succ]
    simp only [pushSeq]
    by_cases hc : f + 1 ≤ 300
    · rw [push_black_run b t 0 f (by omega) hc]
      simp only
      obtain ⟨x, hx, hrec⟩ := ih (b + 1) (t + 1) (f + 1) (by omega) hc
      refine ⟨x, hx, ?_⟩
      rw [hrec]
      simp
      all_goals omega
    · rw [push_black_aging b t 0 f (by omega) (by omega)]
      simp only
      obtain ⟨x, hx, hrec⟩ := ih (b + 1) (t + 1) 0 (by omega) (by omega)
      refine ⟨x, hx, ?_⟩
      rw [hrec]
      simp
      all_goals omega

lemma pushSeq_single (s : BfdState) (b : Bool) :
    pushSeq s [b] = ((sc_black_frame_detector_sink_push s b).st,
      if (sc_black_frame_detector_sink_push s b).emitted then 1 else 0) := by
  simp [pushSeq]


lemma blinkRun_first (g t f : Nat) (hf : f ≤ 300) :
    pushSeq ⟨0, t, 0, f⟩ (blinkRun g) = (⟨0, t + g + 4, 1, 0⟩, 0) := by
  unfold blinkRun
  obtain ⟨x, hx, h1⟩ := pushSeq_gap_re0 g t f hf
  obtain ⟨y, hy, h2⟩ := pushSeq_blacks_re0 3 0 (t + g) x (by omega) hx
  rw [pushSeq_append, pushSeq_append, h1]
  simp only [h2, Nat.zero_add]
  rw [pushSeq_single, push_complete_band 3 (t + g + 3) 0 y (by omega) (by omega)]
  rw [if_neg (by omega)]
  simp
  all_goals omega

lemma blinkRun_next (g t r : Nat) (hg : g + 3 ≤ 300) :
    pushSeq ⟨0, t, r, 0⟩ (blinkRun g) =
      if r + 1 ≥ 3 then (⟨0, t + g + 4, 0, 0⟩, 1)
      else (⟨0, t + g + 4, r + 1, 0⟩, 0) := by
  unfold blinkRun
  rw [pushSeq_append, pushSeq_append,
    pushSeq_gap g t r 0 (by omega)]
  simp only [pushSeq_blacks 3 0 (t + g) r g (by omega) (by omega), Nat.zero_add]
  rw [pushSeq_single, push_complete_band 3 (t + g + 3) r (g + 3) (by omega) (by omega)]
  by_cases hr : r + 1 ≥ 3
  · rw [if_pos hr, if_pos hr]
    simp
    all_goals omega
  · rw [if_neg hr, if_neg hr]
    simp
    all_goals omega


lemma push_accepted (s : BfdState) (b : Bool) :
    (sc_black_frame_detector_sink_push s b).accepted = true := by
  simp only [sc_black_frame_detector_sink_push]
  split_ifs <;> rfl

lemma push_inv_step (s : BfdState) (b : Bool)
    (h10 : s.black_frame_count ≤ 10) (h2 : s.recent_black_episodes ≤ 2) :
    (sc_black_frame_detector_sink_push s b).st.black_frame_count ≤ 10 ∧
    (sc_black_frame_detector_sink_push s b).st.recent_black_episodes ≤ 2 := by
  simp only [sc_black_frame_detector_sink_push, idle_check]
  split_ifs <;> simp_all <;> omega

lemma pushSeq_inv (l : List Bool) : ∀ s : BfdState, s.black_frame_count ≤ 10 →
    s.recent_black_episodes ≤ 2 →
    (pushSeq s l).1.black_frame_count ≤ 10 ∧ (pushSeq s l).1.recent_black_episodes ≤ 2 := by
  induction l with
  | nil => intro s h1 h2; exact ⟨h1, h2⟩
  | cons b rest ih =>
    intro s h1 h2
    simp only [pushSeq]
    exact ih _ (push_inv_step s b h1 h2).1 (push_inv_step s b h1 h2).2

lemma sum_region_uniform (w h ls : Nat) (d : Nat → Nat) (v : Nat)
    (huni : ∀ i < h, ∀ j < w, d (i * ls + j) = v) :
    (∑ i in Finset.range h, ∑ j in Finset.range w, d (i * ls + j)) = h * (w * v) := by
  have : (∑ i in Finset.range h, ∑ j in Finset.range w, d (i * ls + j)) =
      ∑ i in Finset.range h, ∑ j in Finset.range w, v := by
    refine Finset.sum_congr rfl fun i hi => Finset.sum_congr rfl fun j hj => ?_
    exact huni i (Finset.mem_range.mp hi) j (Finset.mem_range.mp hj)
  rw [this]
  simp [Finset.sum_const, Finset.card_range, mul_comm]

lemma sum_region_congr (w h ls : Nat) (d e : Nat → Nat)
    (hagree : ∀ i < h, ∀ j < w, d (i * ls + j) = e (i * ls + j)) :
    (∑ i in Finset.range h, ∑ j in Finset.range w, d (i * ls + j)) =
      ∑ i in Finset.range h, ∑ j in Finset.range w, e (i * ls + j) := by
  refine Finset.sum_congr rfl fun i hi => Finset.sum_congr rfl fun j hj => ?_
  exact hagree i (Finset.mem_range.mp hi) j (Finset.mem_range.mp hj)

/-- C1: starting from the initialized detector, a stimulus of three completed
black runs of length 3 (each ended by a non-black frame, with fewer than 300
intervening frames between episode completions) emits exactly one reset
request, and it is emitted on the push of the non-black frame completing the
third run; immediately afterwards `recent_black_episodes` is 0, a fourth
qualifying run only brings the count back to 1 without a new signal, and three
further qualifying runs are needed before the second signal. -/
theorem C1_three_blink_runs_single_reset (g0 g1 g2 g3 g4 g5 : Nat)
    (h1 : g1 + 3 < 300) (h2 : g2 + 3 < 300)
    (h3 : g3 + 3 < 300) (h4 : g4 + 3 < 300) (h5 : g5 + 3 < 300) :
    (pushSeq sc_black_frame_detector_init (blinkRun g0 ++ blinkRun g1 ++ blinkRun g2)).2 = 1 ∧
    (sc_black_frame_detector_sink_push
      (pushSeq sc_black_frame_detector_init
        (blinkRun g0 ++ blinkRun g1 ++ (List.replicate g2 false ++ List.replicate 3 true))).1
      false).emitted = true ∧
    (pushSeq sc_black_frame_detector_init
      (blinkRun g0 ++ blinkRun g1 ++ blinkRun g2)).1.recent_black_episodes = 0 ∧
    (pushSeq sc_black_frame_detector_init
      (blinkRun g0 ++ blinkRun g1 ++ blinkRun g2 ++ blinkRun g3)).2 = 1 ∧
    (pushSeq sc_black_frame_detector_init
      (blinkRun g0 ++ blinkRun g1 ++ blinkRun g2 ++ blinkRun g3)).1.recent_black_episodes = 1 ∧
    (pushSeq sc_black_frame_detector_init
      (blinkRun g0 ++ blinkRun g1 ++ blinkRun g2 ++ blinkRun g3 ++ blinkRun g4)).2 = 1 ∧
    (pushSeq sc_black_frame_detector_init
      (blinkRun g0 ++ blinkRun g1 ++ blinkRun g2 ++ blinkRun g3 ++ blinkRun g4 ++ blinkRun g5)).2 = 2 := by
  have e0 : pushSeq sc_black_frame_detector_init (blinkRun g0) = (⟨0, 0 + g0 + 4, 1, 0⟩, 0) :=
    blinkRun_first g0 0 0 (by omega)
  have e1 : pushSeq sc_black_frame_detector_init (blinkRun g0 ++ blinkRun g1) =
      (⟨0, 0 + g0 + 4 + g1 + 4, 2, 0⟩, 0) := by
    rw [pushSeq_append (blinkRun g0) (blinkRun g1), e0]
    simp only [blinkRun_next g1 (0 + g0 + 4) 1 (by omega)]
    rw [if_neg (by omega)]
    simp
  have e2 : pushSeq sc_black_frame_detector_init (blinkRun g0 ++ blinkRun g1 ++ blinkRun g2) =
      (⟨0, 0 + g0 + 4 + g1 + 4 + g2 + 4, 0, 0⟩, 1) := by
    rw [pushSeq_append (blinkRun g0 ++ blinkRun g1) (blinkRun g2), e1]
    simp only [blinkRun_next g2 (0 + g0 + 4 + g1 + 4) 2 (by omega)]
    rw [if_pos (by omega)]
    simp
  have e3 : pushSeq sc_black_frame_detector_init
      (blinkRun g0 ++ blinkRun g1 ++ blinkRun g2 ++ blinkRun g3) =
      (⟨0, 0 + g0 + 4 + g1 + 4 + g2 + 4 + g3 + 4, 1, 0⟩, 1) := by
    rw [pushSeq_append (blinkRun g0 ++ blinkRun g1 ++ blinkRun g2) (blinkRun g3), e2]
    simp only [blinkRun_next g3 (0 + g0 + 4 + g1 + 4 + g2 + 4) 0 (by omega)]
    rw [if_neg (by omega)]
    simp
  have e4 : pushSeq sc_black_frame_detector_init
      (blinkRun g0 ++ blinkRun g1 ++ blinkRun g2 ++ blinkRun g3 ++ blinkRun g4) =
      (⟨0, 0 + g0 + 4 + g1 + 4 + g2 + 4 + g3 + 4 + g4 + 4, 2, 0⟩, 1) := by
    rw [pushSeq_append (blinkRun g0 ++ blinkRun g1 ++ blinkRun g2 ++ blinkRun g3) (blinkRun g4), e3]
    simp only [blinkRun_next g4 (0 + g0 + 4 + g1 + 4 + g2 + 4 + g3 + 4) 1 (by omega)]
    rw [if_neg (by omega)]
    simp
  have e5 : pushSeq sc_black_frame_detector_init
      (blinkRun g0 ++ blinkRun g1 ++ blinkRun g2 ++ blinkRun g3 ++ blinkRun g4 ++ blinkRun g5) =
      (⟨0, 0 + g0 + 4 + g1 + 4 + g2 + 4 + g3 + 4 + g4 + 4 + g5 + 4, 0, 0⟩, 2) := by
    rw [pushSeq_append
      (blinkRun g0 ++ blinkRun g1 ++ blinkRun g2 ++ blinkRun g3 ++ blinkRun g4) (blinkRun g5), e4]
    simp only [blinkRun_next g5 (0 + g0 + 4 + g1 + 4 + g2 + 4 + g3 + 4 + g4 + 4) 2 (by omega)]
    rw [if_pos (by omega)]
    simp
  refine ⟨by rw [e2], ?_, by rw [e2], by rw [e3], by rw [e3], by rw [e4], by rw [e5]⟩
  rw [pushSeq_append (blinkRun g0 ++ blinkRun g1)
    (List.replicate g2 false ++ List.replicate 3 true), e1]
  simp only [pushSeq_append (List.replicate g2 false) (List.replicate 3 true),
    Nat.zero_add,
    pushSeq_gap g2 (g0 + 4 + g1 + 4) 2 0 (by omega),
    pushSeq_blacks 3 0 (g0 + 4 + g1 + 4 + g2) 2 g2 (by omega) (by omega)]
  rw [push_complete_band 3 (g0 + 4 + g1 + 4 + g2 + 3) 2 (g2 + 3) (by omega) (by omega)]
  rw [if_pos (by omega)]

/-- Witness for C1 at `g0 = g1 = g2 = g3 = g4 = g5 = 0`. -/
theorem C1_three_blink_runs_single_reset_witness :
    (pushSeq sc_black_frame_detector_init (blinkRun 0 ++ blinkRun 0 ++ blinkRun 0)).2 = 1 ∧
    (sc_black_frame_detector_sink_push
      (pushSeq sc_black_frame_detector_init
        (blinkRun 0 ++ blinkRun 0 ++ (List.replicate 0 false ++ List.replicate 3 true))).1
      false).emitted = true ∧
    (pushSeq sc_black_frame_detector_init
      (blinkRun 0 ++ blinkRun 0 ++ blinkRun 0)).1.recent_black_episodes = 0 ∧
    (pushSeq sc_black_frame_detector_init
      (blinkRun 0 ++ blinkRun 0 ++ blinkRun 0 ++ blinkRun 0)).2 = 1 ∧
    (pushSeq sc_black_frame_detector_init
      (blinkRun 0 ++ blinkRun 0 ++ blinkRun 0 ++ blinkRun 0)).1.recent_black_episodes = 1 ∧
    (pushSeq sc_black_frame_detector_init
      (blinkRun 0 ++ blinkRun 0 ++ blinkRun 0 ++ blinkRun 0 ++ blinkRun 0)).2 = 1 ∧
    (pushSeq sc_black_frame_detector_init
      (blinkRun 0 ++ blinkRun 0 ++ blinkRun 0 ++ blinkRun 0 ++ blinkRun 0 ++ blinkRun 0)).2 = 2 :=
  C1_three_blink_runs_single_reset 0 0 0 0 0 0 (by omega) (by omega) (by omega) (by omega) (by omega)

/-- C2: from any state at the start of a black run (`black_frame_count = 0`,
idle window not crossed during the scenario): a run of exactly 10 black frames
followed by a non-black frame leaves `recent_black_episodes` unchanged, emits
no reset signal, and zeroes the run counter; a run of 11 black frames reaches
count 10 at the 10th frame and on the 11th black frame resets
`black_frame_count` to 0 and `recent_black_episodes` to 0 mid-stream without
emitting a reset signal. -/
theorem C2_screenoff_boundary (t r f : Nat) (hf : f + 11 ≤ 300) :
    (pushSeq ⟨0, t, r, f⟩ (List.replicate 10 true)).1.black_frame_count = 10 ∧
    (pushSeq ⟨0, t, r, f⟩ (List.replicate 10 true ++ [false])).2 = 0 ∧
    (pushSeq ⟨0, t, r, f⟩ (List.replicate 10 true ++ [false])).1.recent_black_episodes = r ∧
    (pushSeq ⟨0, t, r, f⟩ (List.replicate 10 true ++ [false])).1.black_frame_count = 0 ∧
    (pushSeq ⟨0, t, r, f⟩ (List.replicate 11 true)).2 = 0 ∧
    (pushSeq ⟨0, t, r, f⟩ (List.replicate 11 true)).1.black_frame_count = 0 ∧
    (pushSeq ⟨0, t, r, f⟩ (List.replicate 11 true)).1.recent_black_episodes = 0 := by
  have e10 : pushSeq ⟨0, t, r, f⟩ (List.replicate 10 true) = (⟨0 + 10, t + 10, r, f + 10⟩, 0) :=
    pushSeq_blacks 10 0 t r f (by omega) (by omega)
  have e10n : pushSeq ⟨0, t, r, f⟩ (List.replicate 10 true ++ [false]) =
      (⟨0, t + 11, r, f + 11⟩, 0) := by
    rw [pushSeq_append, e10]
    simp only [Nat.zero_add]
    rw [pushSeq_single, push_complete_offband 10 (t + 10) r (f + 10) (by omega) (by omega) (by omega)]
    simp
    all_goals omega
  have e11 : pushSeq ⟨0, t, r, f⟩ (List.replicate 11 true) = (⟨0, t + 11, 0, f + 11⟩, 0) := by
    have : (List.replicate 11 true) = List.replicate 10 true ++ [true] := by decide
    rw [this, pushSeq_append, e10]
    simp only [Nat.zero_add]
    rw [pushSeq_single, push_black_screenoff 10 (t + 10) r (f + 10) (by omega)]
    simp
    all_goals omega
  rw [e10, e10n, e11]
  simp

/-- Witness for C2 at the initialized counters `t = 0`, `r = 0`, `f = 0`. -/
theorem C2_screenoff_boundary_witness :
    (pushSeq ⟨0, 0, 0, 0⟩ (List.replicate 10 true)).1.black_frame_count = 10 ∧
    (pushSeq ⟨0, 0, 0, 0⟩ (List.replicate 10 true ++ [false])).2 = 0 ∧
    (pushSeq ⟨0, 0, 0, 0⟩ (List.replicate 10 true ++ [false])).1.recent_black_episodes = 0 ∧
    (pushSeq ⟨0, 0, 0, 0⟩ (List.replicate 10 true ++ [false])).1.black_frame_count = 0 ∧
    (pushSeq ⟨0, 0, 0, 0⟩ (List.replicate 11 true)).2 = 0 ∧
    (pushSeq ⟨0, 0, 0, 0⟩ (List.replicate 11 true)).1.black_frame_count = 0 ∧
    (pushSeq ⟨0, 0, 0, 0⟩ (List.replicate 11 true)).1.recent_black_episodes = 0 :=
  C2_screenoff_boundary 0 0 0 (by omega)

/-- C3: for a frame of any supported format with positive dimensions whose
sampled plane region is uniformly `v`, the classifier answers black exactly
when `v < 30` (`BRIGHTNESS_THRESHOLD`). -/
theorem C3_uniform_threshold (f : AVFrame) (v : Nat) (hw : 1 ≤ f.width) (hh : 1 ≤ f.height)
    (hsupp : is_supported_format f.format = true) (huni : uniformSamples f v) :
    (is_black_frame f = true ↔ v < BRIGHTNESS_THRESHOLD) := by
  obtain ⟨fmt, w, h, ls, d⟩ := f
  simp only [uniformSamples, sampleRowWidth] at huni
  simp only at hw hh
  cases fmt <;> simp only [is_supported_format, Bool.false_eq_true] at hsupp <;>
    simp only [is_black_frame, lumaSum, packedSum, decide_eq_true_iff] <;>
    simp only at huni
  case YUV420P | NV12 | NV21 =>
    rw [sum_region_uniform w h ls d v huni]
    have hpos : 0 < w * h := Nat.mul_pos hw hh
    have : h * (w * v) = v * (w * h) := by ring
    rw [this]
    exact mul_lt_mul_right hpos
  case RGB24 | BGR24 =>
    rw [sum_region_uniform (w * 3) h ls d v huni]
    have hpos : 0 < w * h * 3 := by positivity
    have : h * (w * 3 * v) = v * (w * h * 3) := by ring
    rw [this]
    exact mul_lt_mul_right hpos

/-- Witness for C3: a 2 by 2 YUV420P frame uniformly at luma 29. -/
theorem C3_uniform_threshold_witness :
    (is_black_frame ⟨.YUV420P, 2, 2, 2, fun _ => 29⟩ = true ↔ 29 < BRIGHTNESS_THRESHOLD) :=
  C3_uniform_threshold ⟨.YUV420P, 2, 2, 2, fun _ => 29⟩ 29 (by decide) (by decide)
    (by decide) (fun _ _ _ _ => rfl)

/-- C4: a frame whose pixel format is not one of the five sampled layouts is
never classified black, whatever its pixel contents, and pushing it still
returns the accepted acknowledgement. -/
theorem C4_unsupported_not_black (f : AVFrame) (s : BfdState)
    (hunsupp : is_supported_format f.format = false) :
    is_black_frame f = false ∧ (push_frame s f).accepted = true := by
  refine ⟨?_, push_accepted s (is_black_frame f)⟩
  obtain ⟨fmt, w, h, ls, d⟩ := f
  cases fmt <;> simp only [is_supported_format, Bool.true_eq_false] at hunsupp <;> rfl

/-- Witness for C4: an all-zero frame in an unsupported format (code 42). -/
theorem C4_unsupported_not_black_witness :
    is_black_frame ⟨.other 42, 2, 2, 2, fun _ => 0⟩ = false ∧
    (push_frame sc_black_frame_detector_init ⟨.other 42, 2, 2, 2, fun _ => 0⟩).accepted = true :=
  C4_unsupported_not_black ⟨.other 42, 2, 2, 2, fun _ => 0⟩ sc_black_frame_detector_init
    (by decide)

/-- C5: two supported-format frames with the same format, dimensions and
stride (stride strictly larger than the sampled logical row width) that agree
on every sampled byte classify identically: bytes in the stride padding never
influence the result. -/
theorem C5_stride_padding_ignored (f g : AVFrame)
    (hfmt : f.format = g.format) (hw : f.width = g.width) (hh : f.height = g.height)
    (hls : f.linesize0 = g.linesize0)
    (hsupp : is_supported_format f.format = true)
    (hstride : sampleRowWidth f < f.linesize0)
    (hagree : ∀ i < f.height, ∀ j < sampleRowWidth f,
      f.data0 (i * f.linesize0 + j) = g.data0 (i * g.linesize0 + j)) :
    is_black_frame f = is_black_frame g := by
  obtain ⟨fmt, w, h, ls, d⟩ := f
  obtain ⟨fmt', w', h', ls', e⟩ := g
  simp only at hfmt hw hh hls
  subst hfmt hw hh hls
  simp only [sampleRowWidth] at hagree hstride
  cases fmt <;>
    simp only [is_black_frame, lumaSum, packedSum] <;>
    simp only at hagree <;>
    rw [sum_region_congr _ h ls d e hagree]

/-- Witness for C5: two 2 by 2 YUV420P frames with stride 4 agreeing on the
sampled bytes (value 10) and differing wildly in the padding bytes. -/
theorem C5_stride_padding_ignored_witness :
    is_black_frame ⟨.YUV420P, 2, 2, 4, fun n => if n % 4 < 2 then 10 else 255⟩ =
      is_black_frame ⟨.YUV420P, 2, 2, 4, fun n => if n % 4 < 2 then 10 else 0⟩ :=
  C5_stride_padding_ignored
    ⟨.YUV420P, 2, 2, 4, fun n => if n % 4 < 2 then 10 else 255⟩
    ⟨.YUV420P, 2, 2, 4, fun n => if n % 4 < 2 then 10 else 0⟩
    rfl rfl rfl rfl (by decide) (by decide) (by decide)

/-- C6: from a state just after an episode completion (`black_frame_count = 0`,
`frames_since_last_black_episode = 0`) with `recent_black_episodes` at 1 or 2,
pushing 300 further frames without a qualifying episode leaves the episode
count intact, and the 301st such frame (more than 300 frames without an
episode) silently resets both `recent_black_episodes` and
`frames_since_last_black_episode` to 0, with no reset signal emitted anywhere
in the 301 pushes. -/
theorem C6_idle_window_aging (t r : Nat) (hr1 : 1 ≤ r) (hr2 : r ≤ 2) :
    (pushSeq ⟨0, t, r, 0⟩ (List.replicate 300 false)).1.recent_black_episodes = r ∧
    (pushSeq ⟨0, t, r, 0⟩ (List.replicate 301 false)).2 = 0 ∧
    (pushSeq ⟨0, t, r, 0⟩ (List.replicate 301 false)).1.recent_black_episodes = 0 ∧
    (pushSeq ⟨0, t, r, 0⟩ (List.replicate 301 false)).1.frames_since_last_black_episode = 0 := by
  have e300 : pushSeq ⟨0, t, r, 0⟩ (List.replicate 300 false) = (⟨0, t + 300, r, 0 + 300⟩, 0) :=
    pushSeq_gap 300 t r 0 (by omega)
  have e301 : pushSeq ⟨0, t, r, 0⟩ (List.replicate 301 false) = (⟨0, t + 301, 0, 0⟩, 0) := by
    have : (List.replicate 301 false) = List.replicate 300 false ++ [false] := by
      rw [← List.replicate_succ']
    rw [this, pushSeq_append, e300]
    simp only [Nat.zero_add]
    rw [pushSeq_single, push_false_idle_aging (t + 300) r 300 (by omega)]
    simp
    all_goals omega
  rw [e300, e301]
  simp

/-- Witness for C6 at `t = 0`, `r = 1`. -/
theorem C6_idle_window_aging_witness :
    (pushSeq ⟨0, 0, 1, 0⟩ (List.replicate 300 false)).1.recent_black_episodes = 1 ∧
    (pushSeq ⟨0, 0, 1, 0⟩ (List.replicate 301 false)).2 = 0 ∧
    (pushSeq ⟨0, 0, 1, 0⟩ (List.replicate 301 false)).1.recent_black_episodes = 0 ∧
    (pushSeq ⟨0, 0, 1, 0⟩ (List.replicate 301 false)).1.frames_since_last_black_episode = 0 :=
  C6_idle_window_aging 0 1 (by omega) (by omega)

/-- C7 counterexample: a reachable push on which `frames_since_last_black_episode`
exceeds the 300-frame ceiling but is NOT reset to 0, contradicting the claim
that both counters are 0 after every such push.  From the initialized detector,
290 non-black frames followed by 10 black frames reach the state
`⟨10, 300, 0, 300⟩`; the next black frame takes the screen-off early return
(run counter reaches 11), which skips the idle-window check, so the push ends
with `frames_since_last_black_episode = 301 > 300`, not 0. -/
theorem C7_counterexample :
    (pushSeq sc_black_frame_detector_init
      (List.replicate 290 false ++ List.replicate 10 true)).1.frames_since_last_black_episode
        + 1 > 300 ∧
    (pushSeq sc_black_frame_detector_init
      (List.replicate 290 false ++ List.replicate 10 true)).1.black_frame_count + 1 > 10 ∧
    (sc_black_frame_detector_sink_push
      (pushSeq sc_black_frame_detector_init
        (List.replicate 290 false ++ List.replicate 10 true)).1
      true).st.frames_since_last_black_episode ≠ 0 := by
  have epre : pushSeq sc_black_frame_detector_init
      (List.replicate 290 false ++ List.replicate 10 true) = (⟨0 + 10, 290 + 10, 0, 290 + 10⟩, 0) := by
    rw [pushSeq_append]
    simp only [sc_black_frame_detector_init]
    rw [pushSeq_gap 290 0 0 0 (by omega)]
    simp only [Nat.zero_add]
    rw [pushSeq_blacks 10 0 290 0 290 (by omega) (by omega)]
    all_goals simp
  rw [epre]
  simp only
  rw [push_black_screenoff 10 (290 + 10) 0 (290 + 10) (by omega)]
  simp

/-- C7 (amended): after a push during which `frames_since_last_black_episode`
exceeds the 300-frame ceiling, both counters end at 0 — provided the push
neither takes the screen-off early return (a black frame driving the run
counter past 10, which skips the idle-window check and leaves
`frames_since_last_black_episode` at its incremented value with only
`recent_black_episodes` zeroed) nor completes a qualifying blink episode
(which already zeroed `frames_since_last_black_episode` before the check). -/
theorem C7_amended_idle_reset (b t r f : Nat) (isBlack : Bool) (hf : f + 1 > 300) :
    (¬(isBlack = true ∧ b + 1 > 10) → ¬(isBlack = false ∧ 2 ≤ b ∧ b ≤ 5) →
      (sc_black_frame_detector_sink_push ⟨b, t, r, f⟩ isBlack).st.recent_black_episodes = 0 ∧
      (sc_black_frame_detector_sink_push ⟨b, t, r, f⟩ isBlack).st.frames_since_last_black_episode = 0) ∧
    ((isBlack = true ∧ b + 1 > 10) →
      (sc_black_frame_detector_sink_push ⟨b, t, r, f⟩ isBlack).st.recent_black_episodes = 0 ∧
      (sc_black_frame_detector_sink_push ⟨b, t, r, f⟩ isBlack).st.frames_since_last_black_episode = f + 1) := by
  cases isBlack with
  | true =>
    by_cases hb : b + 1 > 10
    · rw [push_black_screenoff b t r f hb]
      simp
      all_goals omega
    · rw [push_black_aging b t r f (by omega) hf]
      simp
      omega
  | false =>
    refine ⟨?_, by simp⟩
    intro _ hnb
    by_cases hb : 0 < b
    · rw [push_complete_offband_aging b t r f hb (by simp at hnb; omega) hf]
      simp
    · have hb0 : b = 0 := by omega
      subst hb0
      rw [push_false_idle_aging t r f hf]
      simp

/-- Witness for the amended C7 at `b = 0`, `t = 0`, `r = 1`, `f = 300`,
non-black frame. -/
theorem C7_amended_idle_reset_witness :
    (¬(false = true ∧ 0 + 1 > 10) → ¬(false = false ∧ 2 ≤ 0 ∧ 0 ≤ 5) →
      (sc_black_frame_detector_sink_push ⟨0, 0, 1, 300⟩ false).st.recent_black_episodes = 0 ∧
      (sc_black_frame_detector_sink_push ⟨0, 0, 1, 300⟩ false).st.frames_since_last_black_episode = 0) ∧
    ((false = true ∧ 0 + 1 > 10) →
      (sc_black_frame_detector_sink_push ⟨0, 0, 1, 300⟩ false).st.recent_black_episodes = 0 ∧
      (sc_black_frame_detector_sink_push ⟨0, 0, 1, 300⟩ false).st.frames_since_last_black_episode = 300 + 1) :=
  C7_amended_idle_reset 0 0 1 300 false (by omega)

/-- C8 counterexample: a reachable push of a non-black frame ending a black
run of length 7 (outside the 2..5 blink band, so `recent_black_episodes` is
not incremented) on which `frames_since_last_black_episode` is nevertheless
reset to 0 by the idle-window check, contradicting the claim that the
frames-since counter is reset exactly when the episode counter is
incremented.  From the initialized detector, 293 non-black frames then 7
black frames reach `⟨7, 300, 0, 300⟩`; the next non-black push ends the
off-band run yet leaves `frames_since_last_black_episode = 0`. -/
theorem C8_counterexample :
    0 < (pushSeq sc_black_frame_detector_init
      (List.replicate 293 false ++ List.replicate 7 true)).1.black_frame_count ∧
    ¬(2 ≤ (pushSeq sc_black_frame_detector_init
        (List.replicate 293 false ++ List.replicate 7 true)).1.black_frame_count ∧
      (pushSeq sc_black_frame_detector_init
        (List.replicate 293 false ++ List.replicate 7 true)).1.black_frame_count ≤ 5) ∧
    (sc_black_frame_detector_sink_push
      (pushSeq sc_black_frame_detector_init
        (List.replicate 293 false ++ List.replicate 7 true)).1
      false).st.recent_black_episodes =
      (pushSeq sc_black_frame_detector_init
        (List.replicate 293 false ++ List.replicate 7 true)).1.recent_black_episodes ∧
    (sc_black_frame_detector_sink_push
      (pushSeq sc_black_frame_detector_init
        (List.replicate 293 false ++ List.replicate 7 true)).1
      false).st.frames_since_last_black_episode = 0 := by
  have epre : pushSeq sc_black_frame_detector_init
      (List.replicate 293 false ++ List.replicate 7 true) = (⟨0 + 7, 293 + 7, 0, 293 + 7⟩, 0) := by
    rw [pushSeq_append]
    simp only [sc_black_frame_detector_init]
    rw [pushSeq_gap 293 0 0 0 (by omega)]
    simp only [Nat.zero_add]
    rw [pushSeq_blacks 7 0 293 0 293 (by omega) (by omega)]
    all_goals simp
  rw [epre]
  simp only
  rw [push_complete_offband_aging 7 (293 + 7) 0 (293 + 7) (by omega) (by omega) (by omega)]
  simp

/-- C8 (amended): on every push of a non-black frame that ends a black run of
completed length `L > 0` and during which the 300-frame idle-window ceiling is
not crossed, the run counter is reset to 0, `frames_since_last_black_episode`
ends at 0 exactly when `2 ≤ L ≤ 5`, and `recent_black_episodes` is
incremented exactly when `2 ≤ L ≤ 5` (being zeroed with a signal emission
when the increment reaches 3) and is left unchanged otherwise; when the
ceiling is crossed on the same push, the aging reset zeroes
`frames_since_last_black_episode` even without an increment. -/
theorem C8_amended_blink_band_increment (b t r f : Nat) (hb : 0 < b) (hf : f + 1 ≤ 300) :
    (sc_black_frame_detector_sink_push ⟨b, t, r, f⟩ false).st.black_frame_count = 0 ∧
    ((sc_black_frame_detector_sink_push ⟨b, t, r, f⟩ false).st.frames_since_last_black_episode = 0 ↔
      (2 ≤ b ∧ b ≤ 5)) ∧
    ((2 ≤ b ∧ b ≤ 5) →
      ((sc_black_frame_detector_sink_push ⟨b, t, r, f⟩ false).emitted = false ∧
        (sc_black_frame_detector_sink_push ⟨b, t, r, f⟩ false).st.recent_black_episodes = r + 1) ∨
      (r + 1 ≥ 3 ∧
        (sc_black_frame_detector_sink_push ⟨b, t, r, f⟩ false).emitted = true ∧
        (sc_black_frame_detector_sink_push ⟨b, t, r, f⟩ false).st.recent_black_episodes = 0)) ∧
    (¬(2 ≤ b ∧ b ≤ 5) →
      (sc_black_frame_detector_sink_push ⟨b, t, r, f⟩ false).st.recent_black_episodes = r ∧
      (sc_black_frame_detector_sink_push ⟨b, t, r, f⟩ false).emitted = false) := by
  by_cases hband : 2 ≤ b ∧ b ≤ 5
  · rw [push_complete_band b t r f hband.1 hband.2]
    by_cases hr : r + 1 ≥ 3
    · rw [if_pos hr]
      simp
      omega
    · rw [if_neg hr]
      simp
      omega
  · rw [push_complete_offband b t r f hb hband hf]
    simp
    omega

/-- Witness for the amended C8 at `b = 3`, `t = 0`, `r = 0`, `f = 0`. -/
theorem C8_amended_blink_band_increment_witness :
    (sc_black_frame_detector_sink_push ⟨3, 0, 0, 0⟩ false).st.black_frame_count = 0 ∧
    ((sc_black_frame_detector_sink_push ⟨3, 0, 0, 0⟩ false).st.frames_since_last_black_episode = 0 ↔
      (2 ≤ 3 ∧ 3 ≤ 5)) ∧
    ((2 ≤ 3 ∧ 3 ≤ 5) →
      ((sc_black_frame_detector_sink_push ⟨3, 0, 0, 0⟩ false).emitted = false ∧
        (sc_black_frame_detector_sink_push ⟨3, 0, 0, 0⟩ false).st.recent_black_episodes = 0 + 1) ∨
      (0 + 1 ≥ 3 ∧
        (sc_black_frame_detector_sink_push ⟨3, 0, 0, 0⟩ false).emitted = true ∧
        (sc_black_frame_detector_sink_push ⟨3, 0, 0, 0⟩ false).st.recent_black_episodes = 0)) ∧
    (¬(2 ≤ 3 ∧ 3 ≤ 5) →
      (sc_black_frame_detector_sink_push ⟨3, 0, 0, 0⟩ false).st.recent_black_episodes = 0 ∧
      (sc_black_frame_detector_sink_push ⟨3, 0, 0, 0⟩ false).emitted = false) :=
  C8_amended_blink_band_increment 3 0 0 0 (by omega) (by omega)

/-- C9: `sc_black_frame_detector_sink_open` returns true for every
stream-parameters argument, and `sc_black_frame_detector_sink_push` returns
the accepted acknowledgement for every detector state and every frame
classification, on every control path (the screen-off early return included):
the component has no failing path. -/
theorem C9_open_push_never_fail {α : Type} (params : α) (s : BfdState) (isBlack : Bool)
    (f : AVFrame) :
    sc_black_frame_detector_sink_open params = true ∧
    (sc_black_frame_detector_sink_push s isBlack).accepted = true ∧
    (push_frame s f).accepted = true :=
  ⟨rfl, push_accepted s isBlack, push_accepted s (is_black_frame f)⟩

/-- C10: starting from the initialized state, after every sequence of pushes
the run counter ends at most at the screen-off ceiling
(`black_frame_count ≤ 10`) and the episode counter ends strictly below the
repetition threshold (`recent_black_episodes ≤ 2`). -/
theorem C10_counter_bounds (l : List Bool) :
    (pushSeq sc_black_frame_detector_init l).1.black_frame_count ≤ 10 ∧
    (pushSeq sc_black_frame_detector_init l).1.recent_black_episodes ≤ 2 :=
  pushSeq_inv l sc_black_frame_detector_init (by decide) (by decide)
